import Mathlib

/-!
Shallow embedding of the routing/disambiguation core of the
multi-agent-system repository: `config.py` (user directory),
`api/core/user_resolver.py` (UserResolver), and
`api/core/orchestrator.py` (Orchestrator state machine).

External collaborators (the LLM routing classifier and the two domain
agents) are modelled as function-valued fields of an `Env` record; a
raising Python call is an `Except.error`.  Python dicts whose key sets
vary are modelled as structures with `Option` fields marking key
presence, so that `dict.get(k)` falsiness is `= some true` tests.

Strings are ASCII in every concrete input used below; `Char.toLower`,
`Char.isAlphanum` (ASCII in Lean core) stand in for Python's
Unicode-aware `str.lower` and `\w`.  The float `confidence` produced by
the classifier is abstracted as `Int`: no claim inspects its arithmetic.
-/

instance {ε α : Type} [DecidableEq ε] [DecidableEq α] : DecidableEq (Except ε α) := fun a b =>
  match a, b with
  | .ok a, .ok b => decidable_of_iff (a = b) (by simp)
  | .error a, .error b => decidable_of_iff (a = b) (by simp)
  | .ok _, .error _ => isFalse (by simp)
  | .error _, .ok _ => isFalse (by simp)

/-- `config.py`: `UserConfig` dataclass (username, display_name, tokens). -/
structure UserConfig where
  username : String
  display_name : String
  github_token : Option String := none
  linear_api_key : Option String := none
deriving DecidableEq

/-- `config.py`: `Config.users`, the insertion-ordered dict
`user1 .. userN ↦ UserConfig` built from environment variables. -/
structure Config where
  users : List (String × UserConfig)
deriving DecidableEq

/-- `config.py`: the `self.user1 = self.users['user1']` shortcut set at
construction when the key exists. -/
def config_user1 (cfg : Config) : Option UserConfig :=
  (cfg.users.find? (fun u => u.1 == "user1")).map (fun u => u.2)

/-- `config.py`: the `self.user2` shortcut. -/
def config_user2 (cfg : Config) : Option UserConfig :=
  (cfg.users.find? (fun u => u.1 == "user2")).map (fun u => u.2)

/-- Python dict key membership `uid in config.users`. -/
def has_user (cfg : Config) (uid : String) : Bool :=
  cfg.users.any (fun u => u.1 == uid)

/-- Python `str.lower` (ASCII): per-character lowercasing.  (Lean's
`String.toLower` is extensionally the same map but is defined by
byte-position recursion that the kernel cannot evaluate, so the
char-list map is used throughout.) -/
def str_lower (s : String) : String := String.mk (s.data.map Char.toLower)

/-! ### String matching primitives

`re.search` for the only regexes the resolver compiles —
`\b<literal>\b` and `\b<literal>'s\b` — and Python's substring `in`. -/

/-- Python `\w`: word character (ASCII letters, digits, underscore). -/
def is_word_char (c : Char) : Bool :=
  c.isAlphanum || c == '_'

/-- Whether position `i` of `s` holds a word character (out of range:
no, matching Python's treatment of the string edges for `\b`). -/
def word_char_at (s : List Char) (i : Nat) : Bool :=
  match s.get? i with
  | some c => is_word_char c
  | none => false

/-- Python `\b` at position `i` of `s`: exactly one of the neighbouring
positions `i-1`, `i` holds a word character (string edges count as
non-word). -/
def word_boundary (s : List Char) (i : Nat) : Bool :=
  let left := match i with
    | 0 => false
    | j + 1 => word_char_at s j
  left != word_char_at s i

/-- The literal `needle` occurs in `hay` starting at position `i`. -/
def occurs_at (needle hay : List Char) (i : Nat) : Bool :=
  (hay.drop i).take needle.length == needle

/-- Python substring test `needle in hay`. -/
def substr (needle hay : String) : Bool :=
  (List.range (hay.data.length + 1)).any (fun i => occurs_at needle.data hay.data i)

/-- `re.compile(rf'\b{re.escape(lit)}\b').search(s)` succeeds (the
pattern body is a literal, so this is literal occurrence flanked by word
boundaries). -/
def wb_search (lit : String) (s : String) : Bool :=
  (List.range (s.data.length + 1)).any (fun i =>
    occurs_at lit.data s.data i
    && word_boundary s.data i
    && word_boundary s.data (i + lit.data.length))

/-! ### UserResolver (`api/core/user_resolver.py`) -/

/-- `_build_user_patterns`, per user: the four pattern literals —
lower-cased display name and username, each plain and possessive. -/
def user_pattern_list (u : UserConfig) : List String :=
  [str_lower u.display_name, str_lower u.display_name ++ "\x27s",
   str_lower u.username, str_lower u.username ++ "\x27s"]

/-- `sum(1 for pattern in patterns if pattern.search(query_lower))`. -/
def count_pattern_hits (u : UserConfig) (query_lower : String) : Nat :=
  (user_pattern_list u).countP (fun p => wb_search p query_lower)

/-- `UserResolver.resolve` result dict.  The success branches omit the
`clarification_needed` key; `dict.get` reads a missing key as falsy, so
the field is a plain `Bool` defaulting to `false`. -/
structure UserResolutionResult where
  user_id : Option String
  user_name : Option String
  confidence : Nat
  reason : String
  clarification_needed : Bool
deriving DecidableEq

/-- `UserResolver.resolve(query)`.  The pattern table is built (in
`__init__`) from `config.user1` and `config.user2` only, so the two
compiled users are explicit arguments here. -/
def resolve (u1 u2 : UserConfig) (query : String) : UserResolutionResult :=
  let ql := str_lower query
  let m1 := count_pattern_hits u1 ql
  let m2 := count_pattern_hits u2 ql
  if m1 > 0 ∧ m2 = 0 then
    { user_id := some "user1", user_name := some u1.display_name, confidence := m1,
      reason := "Query mentions " ++ u1.display_name, clarification_needed := false }
  else if m2 > 0 ∧ m1 = 0 then
    { user_id := some "user2", user_name := some u2.display_name, confidence := m2,
      reason := "Query mentions " ++ u2.display_name, clarification_needed := false }
  else if m1 > 0 ∧ m2 > 0 then
    { user_id := none, user_name := none, confidence := 0,
      reason := "Multiple users mentioned", clarification_needed := true }
  else
    { user_id := none, user_name := none, confidence := 0,
      reason := "No user mentioned", clarification_needed := true }

/-- `UserResolver` construction plus `resolve`, starting from the
directory: `_build_user_patterns` reads `config.user1` / `config.user2`,
which must exist (otherwise construction raises, modelled as `none`). -/
def resolve_from_config (cfg : Config) (query : String) : Option UserResolutionResult :=
  match config_user1 cfg, config_user2 cfg with
  | some u1, some u2 => some (resolve u1 u2 query)
  | _, _ => none

/-- Claim-side recomputation, following the spec words of §4.1 / C3:
patterns are compiled for EVERY configured user, and a user's hit count
for a query is the number of its four whole-word patterns that match.
The code-side table (`resolve`) covers only `user1` and `user2`. -/
def spec_user_hits (cfg : Config) (uid : String) (query : String) : Nat :=
  match (cfg.users.find? (fun u => u.1 == uid)).map (fun u => u.2) with
  | some u => count_pattern_hits u (str_lower query)
  | none => 0

/-- `UserResolver.get_clarification_message(agent_name)`. -/
def get_clarification_message (cfg : Config) (agent_name : String) : String :=
  let user_names := cfg.users.map (fun u => u.2.display_name)
  match user_names with
  | [] => "No users configured in the system."
  | [n] => "Only " ++ n ++ " is configured."
  | [a, b] => "Whose " ++ agent_name ++ " data? " ++ a ++ "\x27s or " ++ b ++ "\x27s?"
  | _ => "Whose " ++ agent_name ++ " data? "
           ++ String.intercalate ", " user_names.dropLast
           ++ ", or " ++ user_names.getLastD "" ++ "?"

/-- First loop of `resolve_clarification_response`: the first configured
user (directory insertion order) whose lower-cased display name or
username is a substring of the lower-cased response. -/
def name_phase (cfg : Config) (response_lower : String) : Option String :=
  (cfg.users.find? (fun u =>
      substr (str_lower u.2.display_name) response_lower
      || substr (str_lower u.2.username) response_lower)).map (fun u => u.1)

/-- The `number_words` dict, in insertion (= iteration) order. -/
def number_words : List (String × String) :=
  [("1", "user1"), ("first", "user1"), ("one", "user1"),
   ("2", "user2"), ("second", "user2"), ("two", "user2"),
   ("3", "user3"), ("third", "user3"), ("three", "user3"),
   ("4", "user4"), ("fourth", "user4"), ("four", "user4"),
   ("5", "user5"), ("fifth", "user5"), ("five", "user5")]

/-- Second loop of `resolve_clarification_response`: first number word
that is a substring of the response and whose slot exists in the
directory. -/
def number_phase (cfg : Config) (response_lower : String) : Option String :=
  (number_words.find? (fun nw => substr nw.1 response_lower && has_user cfg nw.2)).map (fun nw => nw.2)

/-- `UserResolver.resolve_clarification_response(response)`. -/
def resolve_clarification_response (cfg : Config) (response : String) : Option String :=
  let rl := str_lower response
  match name_phase cfg rl with
  | some uid => some uid
  | none => number_phase cfg rl

/-! ### RoutingDecision and the classifier contract (`api/core/llm_router.py`) -/

/-- The `Literal["github", "linear", "out_of_scope"]` agent tag of the
pydantic `RoutingDecision`. -/
inductive RDAgent
  | github
  | linear
  | out_of_scope
deriving DecidableEq

/-- The pydantic `RoutingDecision` structured output of the classifier.
`confidence` is a float in the source; abstracted as `Int` (no claim
reads it). -/
structure RoutingDecision where
  agent : RDAgent
  confidence : Int
  reasoning : String
  requires_clarification : Bool := false
  clarification_type : Option String := none
deriving DecidableEq

/-- The dict `LLMRouter.route` returns (and the orchestrator consumes).
Each field is `Option`-wrapped because the orchestrator later rebuilds a
dict holding only the `agent` key: `none` in an outer position means the
key is absent, so `dict.get(k)` is falsy.  The `agent` key itself is
always present but may hold Python `None` (out of scope), hence
`Option String` for its value. -/
structure RoutingResult where
  agent : Option String
  confidence : Option Int
  reason : Option String
  ambiguous : Option Bool
  clarification_type : Option (Option String)
deriving DecidableEq

/-- The dict conversion at the end of `LLMRouter.route` (the successful,
non-raising path). -/
def routing_decision_to_result (d : RoutingDecision) : RoutingResult :=
  { agent := match d.agent with
      | .github => some "github"
      | .linear => some "linear"
      | .out_of_scope => none,
    confidence := some d.confidence,
    reason := some d.reasoning,
    ambiguous := some d.requires_clarification,
    clarification_type := some d.clarification_type }

/-! ### Orchestrator (`api/core/orchestrator.py`) -/

/-- The `self.pending_clarification` dict.  `ambiguous_agent` is set to
`True` in the ambiguous-routing branch, absent in the user-clarification
branch, and overwritten to `False` on an agent-clarification match; the
code only reads it with `dict.get`, so absent and `False` coincide. -/
structure Pending where
  agent_type : Option String
  original_query : String
  routing_result : RoutingResult
  ambiguous_agent : Bool
deriving DecidableEq

/-- The `context` dict built in `Orchestrator._execute_agent`. -/
structure ExecContext where
  action : String
  routing_result : RoutingResult
deriving DecidableEq

/-- The orchestrator's collaborators.  `route` is the LLM classifier
(`Except.error` = the call raised, which `LLMRouter.route` re-raises as
`RuntimeError`); `githubExec`/`linearExec` are the two domain agents'
`execute` (`Except.error` = raised).  `u1`/`u2` are `config.user1` /
`config.user2`, from which the resolver's patterns were compiled at
construction, and `cfg` the full directory. -/
structure Env where
  route : String → Except String RoutingResult
  githubExec : String → String → ExecContext → Except String String
  linearExec : String → String → ExecContext → Except String String
  u1 : UserConfig
  u2 : UserConfig
  cfg : Config

/-- `Orchestrator._execute_agent`.  The whole dispatch is wrapped in
`try/except`, converting any agent exception into the soft error string;
`agent_type` is compared against the two platform tags, anything else
falls to the rejection message. -/
def execute_agent (env : Env) (agent_type : Option String) (query user_id : String)
    (routing_result : RoutingResult) : String :=
  let context : ExecContext := { action := "query", routing_result := routing_result }
  if agent_type = some "github" then
    match env.githubExec query user_id context with
    | .ok r => r
    | .error e => "An error occurred while processing your request: " ++ e
  else if agent_type = some "linear" then
    match env.linearExec query user_id context with
    | .ok r => r
    | .error e => "An error occurred while processing your request: " ++ e
  else
    "I cannot answer this question"

/-- The scan at the top of the agent-clarification branch of
`_handle_clarification_response`: `'github' in response.lower()`, then
`'linear' in response.lower()`. -/
def scan_agent_name (response : String) : Option String :=
  let rl := str_lower response
  if substr "github" rl then some "github"
  else if substr "linear" rl then some "linear"
  else none

/-- `'GitHub' if agent_type == 'github' else 'Linear'` (string form). -/
def agent_display_name (agent_type : String) : String :=
  if agent_type = "github" then "GitHub" else "Linear"

/-- `Orchestrator._handle_clarification_response(response)`, returning
the reply and the new `pending_clarification`.  On an agent match the
pending record is mutated (`agent_type` set, `ambiguous_agent := false`)
BEFORE the original query is re-resolved, so an unresolved user keeps
the mutated record; the dispatch on that path rebuilds a minimal
routing dict `{'agent': agent_type}`. -/
def handle_clarification_response (env : Env) (pending : Option Pending)
    (response : String) : String × Option Pending :=
  match pending with
  | none => ("I cannot answer this question", none)
  | some p =>
    if p.ambiguous_agent then
      match scan_agent_name response with
      | none => ("I can help with that! Are you asking about GitHub or Linear?", some p)
      | some agent_type =>
        let p2 : Pending := { p with agent_type := some agent_type, ambiguous_agent := false }
        let user_result := resolve env.u1 env.u2 p2.original_query
        match user_result.user_id with
        | none =>
          (get_clarification_message env.cfg (agent_display_name agent_type), some p2)
        | some user_id =>
          if user_result.clarification_needed then
            (get_clarification_message env.cfg (agent_display_name agent_type), some p2)
          else
            (execute_agent env (some agent_type) p2.original_query user_id
              { agent := some agent_type, confidence := none, reason := none,
                ambiguous := none, clarification_type := none }, none)
    else
      match resolve_clarification_response env.cfg response with
      | none =>
        (get_clarification_message env.cfg
          (if p.agent_type = some "github" then "GitHub" else "Linear"), some p)
      | some user_id =>
        (execute_agent env p.agent_type p.original_query user_id p.routing_result, none)

/-- `Orchestrator.process_query(query)`: reply (or propagated classifier
exception) together with the new `pending_clarification`. -/
def process_query (env : Env) (pending : Option Pending) (query : String) :
    Except String String × Option Pending :=
  match pending with
  | some _ =>
    let rp := handle_clarification_response env pending query
    (Except.ok rp.1, rp.2)
  | none =>
    match env.route query with
    | .error e => (.error e, none)
    | .ok routing_result =>
      match routing_result.agent with
      | none => (.ok "I cannot answer this question", none)
      | some agent_type =>
        if routing_result.ambiguous = some true then
          (.ok "Which platform? GitHub or Linear?",
           some { agent_type := none, original_query := query,
                  routing_result := routing_result, ambiguous_agent := true })
        else
          let user_result := resolve env.u1 env.u2 query
          match user_result.user_id with
          | none =>
            (.ok (get_clarification_message env.cfg (agent_display_name agent_type)),
             some { agent_type := some agent_type, original_query := query,
                    routing_result := routing_result, ambiguous_agent := false })
          | some user_id =>
            if user_result.clarification_needed then
              (.ok (get_clarification_message env.cfg (agent_display_name agent_type)),
               some { agent_type := some agent_type, original_query := query,
                      routing_result := routing_result, ambiguous_agent := false })
            else
              (.ok (execute_agent env (some agent_type) query user_id routing_result), none)

/-- `Orchestrator.reset_state`. -/
def reset_state (_pending : Option Pending) : Option Pending := none

/-! ### Concrete fixtures for witnesses and counterexamples -/

def alice : UserConfig := { username := "alicehub", display_name := "Alice" }

def bob : UserConfig := { username := "bobhub", display_name := "Bob" }

def charlie : UserConfig := { username := "charliehub", display_name := "Charlie" }

/-- Two-user directory (the deployment the tests exercise). -/
def cfgAB : Config := { users := [("user1", alice), ("user2", bob)] }

/-- Three-user directory (reachable: `config.py` loads `userN` as long as
`GITHUB_USERNAME_USERN` is set). -/
def cfgABC : Config := { users := [("user1", alice), ("user2", bob), ("user3", charlie)] }

/-- A classifier verdict: github, unambiguous. -/
def rr_gh_plain : RoutingResult :=
  { agent := some "github", confidence := some 1, reason := some "github query",
    ambiguous := some false, clarification_type := some none }

/-- A classifier verdict: github, ambiguous, clarification type agent. -/
def rr_gh_amb : RoutingResult :=
  { agent := some "github", confidence := some 1, reason := some "platform unclear",
    ambiguous := some true, clarification_type := some (some "agent") }

/-- A classifier verdict: github, ambiguous, clarification type user
(not agent). -/
def rr_gh_amb_user : RoutingResult :=
  { agent := some "github", confidence := some 1, reason := some "user unclear",
    ambiguous := some true, clarification_type := some (some "user") }

/-- A classifier verdict: out of scope, yet flagged ambiguous. -/
def rr_oos_amb : RoutingResult :=
  { agent := none, confidence := some 1, reason := some "unrelated",
    ambiguous := some true, clarification_type := some none }

/-- A domain agent that always succeeds. -/
def ok_exec : String → String → ExecContext → Except String String :=
  fun _ _ _ => .ok "done"

/-- Environment whose classifier calls "show issues" ambiguous and
everything else plain github. -/
def envAB : Env :=
  { route := fun q => if q = "show issues" then .ok rr_gh_amb else .ok rr_gh_plain,
    githubExec := ok_exec, linearExec := ok_exec,
    u1 := alice, u2 := bob, cfg := cfgAB }

/-- Environment whose classifier always answers out-of-scope-but-ambiguous. -/
def env_oos : Env :=
  { route := fun _ => .ok rr_oos_amb,
    githubExec := ok_exec, linearExec := ok_exec,
    u1 := alice, u2 := bob, cfg := cfgAB }

/-- Environment whose classifier always raises. -/
def env_down : Env :=
  { route := fun _ => .error "LLM routing failed: connection reset",
    githubExec := ok_exec, linearExec := ok_exec,
    u1 := alice, u2 := bob, cfg := cfgAB }

/-! ### Claim theorems -/

/-- C1: while a `PendingClarification` exists, `process_query` hands its
argument to the clarification-answer handler and never consults the
routing classifier (the result is independent of the `route` field); the
state type `Option Pending` is the single `pending_clarification` slot,
so each call returns at most one pending record — it either consumes the
existing one or stores at most one replacement. -/
theorem pending_answer_routing_invariant (env : Env)
    (route' : String → Except String RoutingResult) (p : Pending) (q : String) :
    process_query { env with route := route' } (some p) q
      = (Except.ok (handle_clarification_response env (some p) q).1,
         (handle_clarification_response env (some p) q).2) := rfl

/-- C2: a fresh query routed with `agent = None` gets the fixed
rejection reply and leaves no pending clarification, with no condition
on the `ambiguous` flag — the out-of-scope check precedes the ambiguity
check. -/
theorem out_of_scope_short_circuit (env : Env) (q : String) (rr : RoutingResult)
    (hroute : env.route q = .ok rr) (hagent : rr.agent = none) :
    process_query env none q = (.ok "I cannot answer this question", none) := by
  simp [process_query, hroute, hagent]

theorem out_of_scope_short_circuit_witness :
    env_oos.route "what is the weather today" = .ok rr_oos_amb
    ∧ rr_oos_amb.agent = none
    ∧ rr_oos_amb.ambiguous = some true
    ∧ process_query env_oos none "what is the weather today"
        = (.ok "I cannot answer this question", none) :=
  ⟨rfl, rfl, rfl,
   out_of_scope_short_circuit env_oos "what is the weather today" rr_oos_amb rfl rfl⟩

/-- C8: when the classifier call fails on a fresh query, `process_query`
propagates the error and the pending clarification is as absent after
the call as before it. -/
theorem classifier_error_propagates (env : Env) (q : String) (e : String)
    (hroute : env.route q = .error e) :
    process_query env none q = (.error e, none) := by
  simp [process_query, hroute]

theorem classifier_error_propagates_witness :
    env_down.route "list pull requests" = .error "LLM routing failed: connection reset"
    ∧ process_query env_down none "list pull requests"
        = (.error "LLM routing failed: connection reset", none) :=
  ⟨rfl, classifier_error_propagates env_down "list pull requests" _ rfl⟩

/-- Environment whose classifier flags ambiguity with clarification type
`user`, not `agent`. -/
def env_amb_user : Env :=
  { route := fun _ => .ok rr_gh_amb_user,
    githubExec := ok_exec, linearExec := ok_exec,
    u1 := alice, u2 := bob, cfg := cfgAB }

/-- C4 counterexample: the routing decision is ambiguous but its
clarification type is `user`, yet the orchestrator still stores the
agent-choice pending record and asks the platform question — the code
tests only `routing_result.get('ambiguous')` and never reads
`clarification_type`, so the claimed "iff ... clarificationType = Agent"
fails. -/
theorem ambiguity_branch_ignores_clarification_type_cex :
    env_amb_user.route "show issues" = .ok rr_gh_amb_user
    ∧ rr_gh_amb_user.clarification_type ≠ some (some "agent")
    ∧ process_query env_amb_user none "show issues"
        = (.ok "Which platform? GitHub or Linear?",
           some { agent_type := none, original_query := "show issues",
                  routing_result := rr_gh_amb_user, ambiguous_agent := true }) :=
  ⟨rfl, by decide, by decide⟩

/-- C4 as amended: for a fresh query with a non-`None` agent, the
orchestrator stores the agent-choice `PendingClarification` (agent type
none, the query, the decision verbatim) and returns the platform
question if and only if the decision's `ambiguous` flag is true — the
`clarificationType` field is not consulted. -/
theorem ambiguity_branch_iff_ambiguous (env : Env) (q : String) (rr : RoutingResult)
    (a : String) (hroute : env.route q = .ok rr) (hagent : rr.agent = some a) :
    process_query env none q
      = (.ok "Which platform? GitHub or Linear?",
         some { agent_type := none, original_query := q,
                routing_result := rr, ambiguous_agent := true })
    ↔ rr.ambiguous = some true := by
  by_cases hamb : rr.ambiguous = some true
  · simp [process_query, hroute, hagent, hamb]
  · simp only [process_query, hroute, hagent]
    rw [if_neg hamb]
    constructor
    · intro h
      exfalso
      split at h
      · simp at h
      · split at h
        · simp at h
        · simp at h
    · intro h
      exact absurd h hamb

theorem ambiguity_branch_iff_ambiguous_witness :
    envAB.route "show issues" = .ok rr_gh_amb
    ∧ rr_gh_amb.agent = some "github"
    ∧ rr_gh_amb.ambiguous = some true
    ∧ process_query envAB none "show issues"
        = (.ok "Which platform? GitHub or Linear?",
           some { agent_type := none, original_query := "show issues",
                  routing_result := rr_gh_amb, ambiguous_agent := true }) :=
  ⟨rfl, rfl, rfl,
   (ambiguity_branch_iff_ambiguous envAB "show issues" rr_gh_amb "github" rfl rfl).mpr rfl⟩

/-- Pending record produced by the ambiguous branch for the fixture
query "show issues". -/
def pend_show_issues : Pending :=
  { agent_type := none, original_query := "show issues",
    routing_result := rr_gh_amb, ambiguous_agent := true }

/-- Pending record produced by the ambiguous branch for a query whose
user will resolve once the platform is known. -/
def pend_amb : Pending :=
  { agent_type := none, original_query := "show alice repos",
    routing_result := rr_gh_amb, ambiguous_agent := true }

/-- C5: resuming from agent clarification with an answer naming a known
agent sets `agent_type` on the pending record and re-runs the resolver
on the ORIGINAL stored query (the clarification answer `resp` appears
nowhere in the resolver call); a resolved user clears the pending record
and dispatches the original query with that user, an unresolved one
keeps the (mutated) pending record with `ambiguous_agent` cleared, i.e.
awaiting a user choice. -/
theorem agent_clarification_resume (env : Env) (p : Pending) (resp a uid : String)
    (hamb : p.ambiguous_agent = true) (hscan : scan_agent_name resp = some a) :
    ((resolve env.u1 env.u2 p.original_query).user_id = some uid →
     (resolve env.u1 env.u2 p.original_query).clarification_needed = false →
     handle_clarification_response env (some p) resp
       = (execute_agent env (some a) p.original_query uid
           { agent := some a, confidence := none, reason := none,
             ambiguous := none, clarification_type := none }, none))
    ∧ ((resolve env.u1 env.u2 p.original_query).user_id = none →
     handle_clarification_response env (some p) resp
       = (get_clarification_message env.cfg (agent_display_name a),
          some { p with agent_type := some a, ambiguous_agent := false }))
    ∧ ((resolve env.u1 env.u2 p.original_query).clarification_needed = true →
     handle_clarification_response env (some p) resp
       = (get_clarification_message env.cfg (agent_display_name a),
          some { p with agent_type := some a, ambiguous_agent := false })) := by
  refine ⟨?_, ?_, ?_⟩
  · intro h1 h2
    simp [handle_clarification_response, hamb, hscan, h1, h2]
  · intro h1
    simp [handle_clarification_response, hamb, hscan, h1]
  · intro h1
    cases hu : (resolve env.u1 env.u2 p.original_query).user_id with
    | none => simp [handle_clarification_response, hamb, hscan, hu]
    | some uid2 => simp [handle_clarification_response, hamb, hscan, hu, h1]

theorem agent_clarification_resume_witness :
    pend_amb.ambiguous_agent = true
    ∧ scan_agent_name "github" = some "github"
    ∧ (resolve envAB.u1 envAB.u2 pend_amb.original_query).user_id = some "user1"
    ∧ (resolve envAB.u1 envAB.u2 pend_amb.original_query).clarification_needed = false
    ∧ handle_clarification_response envAB (some pend_amb) "github"
        = (execute_agent envAB (some "github") pend_amb.original_query "user1"
            { agent := some "github", confidence := none, reason := none,
              ambiguous := none, clarification_type := none }, none) :=
  ⟨rfl, by decide, by decide, by decide,
   (agent_clarification_resume envAB pend_amb "github" "github" "user1" rfl
     (by decide)).1 (by decide) (by decide)⟩

/-- C6 counterexample: the question issued when the ambiguous pending is
created is "Which platform? GitHub or Linear?", but the re-prompt after
an unrecognised answer is the DIFFERENT string "I can help with that!
Are you asking about GitHub or Linear?" — the pending record itself is
unchanged, as claimed. -/
theorem agent_reprompt_differs_cex :
    process_query envAB none "show issues"
      = (.ok "Which platform? GitHub or Linear?", some pend_show_issues)
    ∧ process_query envAB (some pend_show_issues) "neither"
      = (.ok "I can help with that! Are you asking about GitHub or Linear?",
         some pend_show_issues)
    ∧ ("I can help with that! Are you asking about GitHub or Linear?" : String)
        ≠ "Which platform? GitHub or Linear?" :=
  ⟨by decide, by decide, by decide⟩

/-- C6 as amended: when awaiting agent clarification and the answer
contains no known agent name (case-insensitive substring scan), the
orchestrator re-prompts with the fixed question "I can help with that!
Are you asking about GitHub or Linear?" (a different string from the
originally issued "Which platform? GitHub or Linear?"), and the pending
clarification is unchanged. -/
theorem agent_reprompt_fixed_message (env : Env) (p : Pending) (resp : String)
    (hamb : p.ambiguous_agent = true) (hscan : scan_agent_name resp = none) :
    handle_clarification_response env (some p) resp
      = ("I can help with that! Are you asking about GitHub or Linear?", some p) := by
  simp [handle_clarification_response, hamb, hscan]

theorem agent_reprompt_fixed_message_witness :
    pend_show_issues.ambiguous_agent = true
    ∧ scan_agent_name "neither" = none
    ∧ handle_clarification_response envAB (some pend_show_issues) "neither"
        = ("I can help with that! Are you asking about GitHub or Linear?",
           some pend_show_issues) :=
  ⟨rfl, by decide,
   agent_reprompt_fixed_message envAB pend_show_issues "neither" rfl (by decide)⟩

/-- Environment whose GitHub agent reports which routing decision it was
handed in its dispatch context: the one stored in the pending record,
the minimal one-key dict, or anything else. -/
def env_probe : Env :=
  { route := fun _ => .ok rr_gh_plain,
    githubExec := fun _ _ ctx =>
      .ok (if ctx.routing_result = rr_gh_amb then "stored decision"
           else if ctx.routing_result
                  = { agent := some "github", confidence := none, reason := none,
                      ambiguous := none, clarification_type := none } then "minimal decision"
           else "other decision"),
    linearExec := ok_exec, u1 := alice, u2 := bob, cfg := cfgAB }

/-- C7 counterexample: a dispatch that consumes the pending record after
AGENT clarification does not pass the stored `RoutingDecision`; the code
rebuilds `routing_result = {'agent': agent_type}`, so the probing agent
sees the minimal one-key dict, not the stored decision. -/
theorem stored_decision_not_reused_cex :
    pend_amb.routing_result = rr_gh_amb
    ∧ handle_clarification_response env_probe (some pend_amb) "github"
        = ("minimal decision", none) :=
  ⟨rfl, by decide⟩

/-- C7 as amended: a dispatch that consumes the pending record after
USER clarification passes the stored routing decision verbatim, while a
dispatch straight out of AGENT clarification passes a freshly built
minimal decision holding only the chosen agent tag. -/
theorem dispatch_decision_provenance (env : Env) (p : Pending) (resp uid : String) :
    (p.ambiguous_agent = false →
     resolve_clarification_response env.cfg resp = some uid →
     handle_clarification_response env (some p) resp
       = (execute_agent env p.agent_type p.original_query uid p.routing_result, none))
    ∧ (∀ a, p.ambiguous_agent = true →
       scan_agent_name resp = some a →
       (resolve env.u1 env.u2 p.original_query).user_id = some uid →
       (resolve env.u1 env.u2 p.original_query).clarification_needed = false →
       handle_clarification_response env (some p) resp
         = (execute_agent env (some a) p.original_query uid
             { agent := some a, confidence := none, reason := none,
               ambiguous := none, clarification_type := none }, none)) := by
  constructor
  · intro h1 h2
    simp [handle_clarification_response, h1, h2]
  · intro a h1 h2 h3 h4
    simp [handle_clarification_response, h1, h2, h3, h4]

/-- Pending record awaiting a user choice for a stored github routing. -/
def pend_user : Pending :=
  { agent_type := some "github", original_query := "show repos",
    routing_result := rr_gh_plain, ambiguous_agent := false }

theorem dispatch_decision_provenance_witness :
    pend_user.ambiguous_agent = false
    ∧ resolve_clarification_response envAB.cfg "alice" = some "user1"
    ∧ handle_clarification_response envAB (some pend_user) "alice"
        = (execute_agent envAB pend_user.agent_type pend_user.original_query "user1"
            pend_user.routing_result, none) :=
  ⟨rfl, by decide,
   (dispatch_decision_provenance envAB pend_user "alice" "user1").1 rfl (by decide)⟩

/-- Environment whose GitHub agent always raises. -/
def env_boom : Env :=
  { route := fun _ => .ok rr_gh_plain,
    githubExec := fun _ _ _ => .error "boom",
    linearExec := ok_exec, u1 := alice, u2 := bob, cfg := cfgAB }

/-- C9: a raising domain-agent call is caught inside `_execute_agent`
and converted into the soft user-visible message (for either platform),
and on a full fresh-query dispatch the turn still completes normally —
`process_query` returns an `ok` reply, never the exception, with no
pending clarification left behind. -/
theorem agent_error_soft_handling :
    (∀ (env : Env) (q uid : String) (rr : RoutingResult) (e : String),
      env.githubExec q uid { action := "query", routing_result := rr } = .error e →
      execute_agent env (some "github") q uid rr
        = "An error occurred while processing your request: " ++ e)
    ∧ (∀ (env : Env) (q uid : String) (rr : RoutingResult) (e : String),
      env.linearExec q uid { action := "query", routing_result := rr } = .error e →
      execute_agent env (some "linear") q uid rr
        = "An error occurred while processing your request: " ++ e)
    ∧ (∀ (env : Env) (q : String) (rr : RoutingResult) (uid e : String),
      env.route q = .ok rr → rr.agent = some "github" → ¬ rr.ambiguous = some true →
      (resolve env.u1 env.u2 q).user_id = some uid →
      (resolve env.u1 env.u2 q).clarification_needed = false →
      env.githubExec q uid { action := "query", routing_result := rr } = .error e →
      process_query env none q
        = (.ok ("An error occurred while processing your request: " ++ e), none)) := by
  refine ⟨?_, ?_, ?_⟩
  · intro env q uid rr e h
    simp [execute_agent, h]
  · intro env q uid rr e h
    simp [execute_agent, h]
  · intro env q rr uid e h1 h2 h3 h4 h5 h6
    simp [process_query, execute_agent, h1, h2, h3, h4, h5, h6]

theorem agent_error_soft_handling_witness :
    env_boom.route "show alice repos" = .ok rr_gh_plain
    ∧ rr_gh_plain.agent = some "github"
    ∧ ¬ rr_gh_plain.ambiguous = some true
    ∧ (resolve env_boom.u1 env_boom.u2 "show alice repos").user_id = some "user1"
    ∧ (resolve env_boom.u1 env_boom.u2 "show alice repos").clarification_needed = false
    ∧ env_boom.githubExec "show alice repos" "user1"
        { action := "query", routing_result := rr_gh_plain } = .error "boom"
    ∧ process_query env_boom none "show alice repos"
        = (.ok "An error occurred while processing your request: boom", none) :=
  ⟨rfl, rfl, by decide, by decide, by decide, rfl,
   agent_error_soft_handling.2.2 env_boom "show alice repos" rr_gh_plain "user1" "boom"
     rfl rfl (by decide) (by decide) (by decide) rfl⟩

lemma substr_1_none : substr "1" "none" = false := by decide

lemma substr_first_none : substr "first" "none" = false := by decide

lemma substr_one_none : substr "one" "none" = true := by decide

lemma str_lower_none : str_lower "none" = "none" := by decide

/-- C10: `resolve_clarification_response` is exactly the two substring
phases in order — a configured name/username phase over the lower-cased
response in directory insertion order, then the number-word phase, which
fires on mere substring containment; hence the answer "none" (which
contains "one") resolves to the first configured slot whenever no
configured identifier matched and that slot exists, and `none` comes
back only when neither phase fires. -/
theorem clarification_response_substring_phases (cfg : Config) (response : String) :
    (resolve_clarification_response cfg response = none
       ↔ name_phase cfg (str_lower response) = none
         ∧ number_phase cfg (str_lower response) = none)
    ∧ (∀ uid, name_phase cfg (str_lower response) = some uid →
        resolve_clarification_response cfg response = some uid)
    ∧ (name_phase cfg "none" = none → has_user cfg "user1" = true →
        resolve_clarification_response cfg "none" = some "user1") := by
  refine ⟨?_, ?_, ?_⟩
  · unfold resolve_clarification_response
    cases h : name_phase cfg (str_lower response) <;> simp [h]
  · intro uid h
    simp [resolve_clarification_response, h]
  · intro h1 h2
    simp only [resolve_clarification_response, str_lower_none, h1]
    unfold number_phase number_words
    simp [List.find?, substr_1_none, substr_first_none, substr_one_none, h2]

theorem clarification_response_substring_phases_witness :
    name_phase cfgAB "none" = none
    ∧ has_user cfgAB "user1" = true
    ∧ resolve_clarification_response cfgAB "none" = some "user1" :=
  ⟨by decide, by decide,
   (clarification_response_substring_phases cfgAB "none").2.2 (by decide) (by decide)⟩

/-- C3 counterexample: in a reachable three-user directory the spec-side
pattern table ("patterns compiled for every configured user") gives
exactly one user — user3 — a whole-word hit on the query, yet the code
resolver, whose table is built from `config.user1` and `config.user2`
only, reports "No user mentioned" instead of resolving user3. -/
theorem resolver_pattern_coverage_cex :
    spec_user_hits cfgABC "user3" "show charlie repos" > 0
    ∧ spec_user_hits cfgABC "user1" "show charlie repos" = 0
    ∧ spec_user_hits cfgABC "user2" "show charlie repos" = 0
    ∧ resolve_from_config cfgABC "show charlie repos"
        = some { user_id := none, user_name := none, confidence := 0,
                 reason := "No user mentioned", clarification_needed := true } := by
  decide

/-- C3 as amended: the resolver's patterns cover only the first two
configured users (`config.user1`, `config.user2`); for every query, if
exactly one of those two has a pattern hit, `resolve` returns that
user's id with confidence equal to its hit count and
`clarificationNeeded = false`; if both or neither of the two have hits
it returns no id with `clarificationNeeded = true` and reason
"Multiple users mentioned" respectively "No user mentioned". -/
theorem resolver_two_user_resolution (cfg : Config) (u1 u2 : UserConfig) (q : String)
    (h1 : config_user1 cfg = some u1) (h2 : config_user2 cfg = some u2) :
    resolve_from_config cfg q = some (resolve u1 u2 q)
    ∧ (count_pattern_hits u1 (str_lower q) > 0 → count_pattern_hits u2 (str_lower q) = 0 →
        resolve u1 u2 q
          = { user_id := some "user1", user_name := some u1.display_name,
              confidence := count_pattern_hits u1 (str_lower q),
              reason := "Query mentions " ++ u1.display_name,
              clarification_needed := false })
    ∧ (count_pattern_hits u2 (str_lower q) > 0 → count_pattern_hits u1 (str_lower q) = 0 →
        resolve u1 u2 q
          = { user_id := some "user2", user_name := some u2.display_name,
              confidence := count_pattern_hits u2 (str_lower q),
              reason := "Query mentions " ++ u2.display_name,
              clarification_needed := false })
    ∧ (count_pattern_hits u1 (str_lower q) > 0 → count_pattern_hits u2 (str_lower q) > 0 →
        resolve u1 u2 q
          = { user_id := none, user_name := none, confidence := 0,
              reason := "Multiple users mentioned", clarification_needed := true })
    ∧ (count_pattern_hits u1 (str_lower q) = 0 → count_pattern_hits u2 (str_lower q) = 0 →
        resolve u1 u2 q
          = { user_id := none, user_name := none, confidence := 0,
              reason := "No user mentioned", clarification_needed := true }) := by
  refine ⟨?_, ?_, ?_, ?_, ?_⟩
  · simp [resolve_from_config, h1, h2]
  all_goals
    intro ha hb
    simp only [resolve]
    split_ifs <;> first | rfl | (exfalso; omega)

theorem resolver_two_user_resolution_witness :
    config_user1 cfgAB = some alice
    ∧ config_user2 cfgAB = some bob
    ∧ resolve_from_config cfgAB "show alice repos"
        = some (resolve alice bob "show alice repos")
    ∧ resolve alice bob "show alice repos"
        = { user_id := some "user1", user_name := some "Alice", confidence := 1,
            reason := "Query mentions Alice", clarification_needed := false } :=
  ⟨by decide, by decide,
   (resolver_two_user_resolution cfgAB alice bob "show alice repos" rfl rfl).1,
   by
     rw [(resolver_two_user_resolution cfgAB alice bob "show alice repos" rfl rfl).2.1
           (by decide) (by decide)]
     decide⟩
